import Mathlib

/-!
Verification of the authentication / credential-lifecycle core of a small
attendance-tracking application (UserManager in auth.py, plus the JSON
fallback collection SimpleCol in database.py).

Modelling conventions:
* timestamps are integers (minutes); datetime.now() / datetime.utcnow()
  become an explicit `now : Int` parameter threaded into each operation;
* the store is a list of user documents; SimpleCol.find_one returns the
  first match and SimpleCol.update_one updates the first match, which the
  embedding mirrors (with a unique index on username, MongoDB agrees);
* randomness (uuid4, secrets.token_urlsafe) becomes an explicit parameter;
* operations are state passing: they return their result together with the
  store after all writes the Python code issued.
-/

/-- MAX_LOGIN_ATTEMPTS, default 5 (env-overridable in the source; the
default is modelled). -/
def MAX_LOGIN_ATTEMPTS : Nat := 5

/-- LOCKOUT_DURATION_MINUTES, default 30. -/
def LOCKOUT_DURATION : Int := 30

/-- TOKEN_EXPIRY_MINUTES, default 30. -/
def TOKEN_EXPIRY_MINUTES : Int := 30

/-- PASSWORD_MIN_LENGTH, default 8. -/
def PASSWORD_MIN_LENGTH : Nat := 8

/-! ## Regex semantics

Both regexes in auth.py are used through re.match with a `^...$` pattern.
Python's `$` (non-multiline) matches at the end of the string or just
before a newline that is the last character, so a single trailing newline
is tolerated by both patterns; `chopNl` removes it. Character classes
`[a-z]`, `[A-Z]`, `[a-zA-Z]`, `[0-9]` are the literal ASCII ranges, which
Char.isLower / Char.isUpper / Char.isAlpha / Char.isDigit decide exactly;
the password pattern's \d (a str pattern, so any Unicode decimal digit, not
just ASCII 0-9) is modelled by the enumerated codepoint ranges below. -/

/-- Drop one trailing newline, as tolerated by the `$` anchor. -/
def chopNl (l : List Char) : List Char :=
  match l.getLast? with
  | some c => if c = '\n' then l.dropLast else l
  | none => l

/-- Split a char list at the first occurrence of a separator (none if the
separator does not occur). -/
def splitFirst (sep : Char) : List Char → Option (List Char × List Char)
  | [] => none
  | c :: cs =>
    if c = sep then some ([], cs)
    else match splitFirst sep cs with
      | some (a, b) => some (c :: a, b)
      | none => none

/-- Split a char list at the last occurrence of a separator. -/
def splitLast (sep : Char) (l : List Char) : Option (List Char × List Char) :=
  match splitFirst sep l.reverse with
  | some (a, b) => some (b.reverse, a.reverse)
  | none => none

/-- Characters allowed in the local part of the email regex:
[a-zA-Z0-9._%+-]. -/
def isLocalChar (c : Char) : Bool :=
  c.isAlpha || c.isDigit || c = '.' || c = '_' || c = '%' || c = '+' || c = '-'

/-- Characters allowed in the domain part of the email regex:
[a-zA-Z0-9.-]. -/
def isDomainChar (c : Char) : Bool :=
  c.isAlpha || c.isDigit || c = '.' || c = '-'

/-- UserManager.validate_email: re.match against
`^[a-zA-Z0-9._%+-]+@[a-zA-Z0-9.-]+\.[a-zA-Z]{2,}$`. Since `@` is in no
class, the first `@` separates local part and domain, and since the tld
class has no dot, the dot before the tld is the last dot after the `@`. -/
def validate_email (email : String) : Bool :=
  let l := chopNl email.data
  match splitFirst '@' l with
  | none => false
  | some (loc, rest) =>
    !loc.isEmpty && loc.all isLocalChar &&
    match splitLast '.' rest with
    | none => false
    | some (dom, tld) =>
      !dom.isEmpty && dom.all isDomainChar && decide (tld.length ≥ 2) && tld.all Char.isAlpha

/-- The fixed symbol set of the password pattern: [@$!%*?&]. -/
def isPwSpecial (c : Char) : Bool :=
  c = '@' || c = '$' || c = '!' || c = '%' || c = '*' || c = '?' || c = '&'

/-- The codepoint ranges matched by \d in a Python str pattern (every Unicode
decimal digit, category Nd, surrogates excluded as they are not scalar values),
enumerated from the re module of the Python the program runs on. -/
def ndRanges : List (Nat × Nat) :=
  [(48, 57), (1632, 1641), (1776, 1785), (1984, 1993), (2406, 2415),
   (2534, 2543), (2662, 2671), (2790, 2799), (2918, 2927), (3046, 3055),
   (3174, 3183), (3302, 3311), (3430, 3439), (3558, 3567), (3664, 3673),
   (3792, 3801), (3872, 3881), (4160, 4169), (4240, 4249), (6112, 6121),
   (6160, 6169), (6470, 6479), (6608, 6617), (6784, 6793), (6800, 6809),
   (6992, 7001), (7088, 7097), (7232, 7241), (7248, 7257), (42528, 42537),
   (43216, 43225), (43264, 43273), (43472, 43481), (43504, 43513), (43600, 43609),
   (44016, 44025), (65296, 65305), (66720, 66729), (68912, 68921), (69734, 69743),
   (69872, 69881), (69942, 69951), (70096, 70105), (70384, 70393), (70736, 70745),
   (70864, 70873), (71248, 71257), (71360, 71369), (71472, 71481), (71904, 71913),
   (72016, 72025), (72784, 72793), (73040, 73049), (73120, 73129), (92768, 92777),
   (92864, 92873), (93008, 93017), (120782, 120831), (123200, 123209), (123632, 123641),
   (125264, 125273), (130032, 130041)]

/-- The class matched by \d: any Unicode decimal digit, strictly wider than
ASCII 0-9 (for example the Arabic-Indic digits U+0660..U+0669 are included). -/
def isUnicodeDigit (c : Char) : Bool :=
  ndRanges.any (fun r => decide (r.1 ≤ c.toNat) && decide (c.toNat ≤ r.2))

/-- The body class of the password pattern: [A-Za-z\d@$!%*?&], with \d the
Unicode decimal-digit class. -/
def isPwChar (c : Char) : Bool :=
  c.isAlpha || isUnicodeDigit c || isPwSpecial c

/-- re.match against UserManager.PASSWORD_REGEX
`^(?=.*[a-z])(?=.*[A-Z])(?=.*\d)(?=.*[@$!%*?&])[A-Za-z\d@$!%*?&]{8,}$`:
the matched body (the string minus an optional trailing newline, which the
`$` anchor tolerates) is at least 8 chars of the allowed class, and the
lookaheads require one char of each required class (the `.` of a lookahead
cannot cross a newline, so they range over the body). -/
def pwRegexMatch (s : String) : Bool :=
  let b := chopNl s.data
  decide (b.length ≥ PASSWORD_MIN_LENGTH) && b.all isPwChar &&
    b.any Char.isLower && b.any Char.isUpper && b.any isUnicodeDigit && b.any isPwSpecial

/-- UserManager.validate_password: empty check, then length of the full
string, then the regex. Returns (is_valid, error message). -/
def validate_password (password : String) : Bool × String :=
  if password = "" then (false, "Password cannot be empty")
  else if password.length < PASSWORD_MIN_LENGTH then
    (false, "Password must be at least 8 characters")
  else if !pwRegexMatch password then
    (false, "Password must contain at least one uppercase letter, one lowercase letter, one number, and one special character")
  else (true, "")

/-! ## Credential hasher

bcrypt is an external collaborator (not part of the repository). Modelled
from the spec: `hash` produces an irreversible digest and `verify`
succeeds exactly on the hashed plaintext. The model is the ideal
deterministic functional abstraction of that contract: an injective
encoding, with verification by re-encoding. -/

/-- Modelled from the spec: hash_password (bcrypt digest of the
plaintext), abstracted as an injective tagged encoding. -/
def hash_password (p : String) : String := "bcrypt$" ++ p

/-- Modelled from the spec: verify_password succeeds exactly when the
digest is the hash of the offered plaintext. -/
def verify_password (p h : String) : Bool := h == hash_password p

/-! ## User documents and the store -/

/-- One user document, with the fields create_user initializes (absent
optional fields are `none`). -/
structure UserDoc where
  user_id : String
  username : String
  password : String
  email : String
  name : String
  role : String
  created_at : Int
  last_login : Option Int
  last_modified : Option Int
  failed_attempts : Nat
  is_locked : Bool
  lockout_until : Option Int
  status : String
  reset_token : Option String
  token_expiry : Option Int
  deriving DecidableEq, Repr

/-- The users collection. -/
abbrev Store := List UserDoc

/-- update_one with a `$set`: applies `f` to the first document matching
the predicate and leaves everything else unchanged (SimpleCol.update_one
breaks after the first match; the username/email/reset_token filters used
by UserManager hit at most one document under MongoDB's unique indexes). -/
def updateFirst (p : UserDoc → Bool) (f : UserDoc → UserDoc) : Store → Store
  | [] => []
  | u :: rest => if p u then f u :: rest else u :: updateFirst p f rest

/-- find_one({"username": username}). -/
def findUser (s : Store) (username : String) : Option UserDoc :=
  List.find? (fun u => u.username == username) s

/-- UserManager.find_user_by_email: find_one({"email": email}). -/
def find_user_by_email (s : Store) (email : String) : Option UserDoc :=
  List.find? (fun u => u.email == email) s

/-- find_one({"reset_token": token}). -/
def findByToken (s : Store) (token : String) : Option UserDoc :=
  List.find? (fun u => u.reset_token == some token) s

/-- Result of authenticate_user: success carries the session payload
{username, role, name, email}; failure carries the reason string. -/
inductive AuthResult where
  | ok (username role name email : String)
  | err (reason : String)
  deriving DecidableEq, Repr

/-- Result of validate_reset_token: success carries
{username, email, name}; failure carries the reason string. -/
inductive ValidateResult where
  | ok (username email name : String)
  | err (reason : String)
  deriving DecidableEq, Repr

/-- Python's `lockout_until and lockout_until > datetime.now()`: None is
falsy, a datetime compares. -/
def lockoutActive : Option Int → Int → Bool
  | some t, now => t > now
  | none, _ => false

/-- Rendering of a nullable timestamp inside an f-string (Python prints
None as "None"). -/
def dtStr : Option Int → String
  | some t => toString t
  | none => "None"

/-- UserManager.create_user: validation cascade (username length, email
format, username taken, email taken, password strength), then one
insert_one of the fully initialized document. `now` is the server clock
and `uid` the generated uuid4. -/
def create_user (now : Int) (uid : String)
    (username password email name role : String) (s : Store) :
    (Bool × String) × Store :=
  if username = "" || username.length < 3 then
    ((false, "Username must be at least 3 characters"), s)
  else if !validate_email email then
    ((false, "Invalid email format"), s)
  else if (findUser s username).isSome then
    ((false, "Username already exists"), s)
  else if (find_user_by_email s email).isSome then
    ((false, "Email already exists"), s)
  else
    match validate_password password with
    | (false, e) => ((false, e), s)
    | (true, _) =>
      ((true, "User created successfully in MongoDB."),
        s ++ [{ user_id := uid, username := username,
                password := hash_password password, email := email,
                name := name, role := role, created_at := now,
                last_login := none, last_modified := none,
                failed_attempts := 0, is_locked := false,
                lockout_until := none, status := "active",
                reset_token := none, token_expiry := none }])

/-- UserManager.authenticate_user. Note that after the expired-lock
clearing write the code keeps using the `user` document read before that
write (it does not re-read), so the failure branch increments the stale
failed_attempts value. -/
def authenticate_user (now : Int) (username : String) (password : Option String)
    (s : Store) : AuthResult × Store :=
  match findUser s username with
  | none => (.err "User not found", s)
  | some user =>
    if user.is_locked && lockoutActive user.lockout_until now then
      (.err ("Account locked until " ++ dtStr user.lockout_until), s)
    else
      let s1 :=
        if user.is_locked then
          updateFirst (fun u => u.username == username)
            (fun u => { u with is_locked := false, failed_attempts := 0,
                               lockout_until := none }) s
        else s
      if user.status != "active" then (.err "Account is inactive", s1)
      else
        match password with
        | none => (.ok username user.role user.name user.email, s1)
        | some pw =>
          if verify_password pw user.password then
            (.ok username user.role user.name user.email,
              updateFirst (fun u => u.username == username)
                (fun u => { u with last_login := some now, failed_attempts := 0,
                                   lockout_until := none }) s1)
          else
            let failed := user.failed_attempts + 1
            let locked := decide (failed ≥ MAX_LOGIN_ATTEMPTS)
            let lu : Option Int := if locked then some (now + LOCKOUT_DURATION) else none
            ((if locked then AuthResult.err ("Account locked until " ++ dtStr lu)
              else AuthResult.err "Invalid password"),
              updateFirst (fun u => u.username == username)
                (fun u => { u with failed_attempts := failed, is_locked := locked,
                                   lockout_until := lu }) s1)

/-- UserManager.change_password: authenticate with the current password
(threading its writes), then strength validation, then one update_one
overwriting the hash and last_modified. -/
def change_password (now : Int) (username current_password new_password : String)
    (s : Store) : (Bool × String) × Store :=
  match authenticate_user now username (some current_password) s with
  | (.err _, s1) => ((false, "Current password is incorrect"), s1)
  | (.ok _ _ _ _, s1) =>
    match validate_password new_password with
    | (false, e) => ((false, e), s1)
    | (true, _) =>
      ((true, "Password updated successfully in MongoDB."),
        updateFirst (fun u => u.username == username)
          (fun u => { u with password := hash_password new_password,
                             last_modified := some now }) s1)

/-- UserManager.generate_reset_token: `token` is the generated secure
token (an explicit parameter standing for secrets.token_urlsafe(32)).
Sets reset_token and token_expiry = now + TOKEN_EXPIRY_MINUTES on the
user found by email, returning the token and the display name. -/
def generate_reset_token (now : Int) (token : String) (email : String) (s : Store) :
    (Bool × Option String × String) × Store :=
  match find_user_by_email s email with
  | none => ((false, none, "Email not found"), s)
  | some user =>
    ((true, some token, user.name),
      updateFirst (fun u => u.email == email)
        (fun u => { u with reset_token := some token,
                           token_expiry := some (now + TOKEN_EXPIRY_MINUTES) }) s)

/-- UserManager.validate_reset_token: pure check (the Python body issues
no write), embedded as a function of the store that returns no new
store. -/
def validate_reset_token (now : Int) (token : String) (s : Store) : ValidateResult :=
  if token = "" then .err "No reset token provided"
  else
    match findByToken s token with
    | none => .err "Invalid reset token"
    | some user =>
      match user.token_expiry with
      | none => .err "Reset token has expired"
      | some e =>
        if e < now then .err "Reset token has expired"
        else .ok user.username user.email user.name

/-- UserManager.reset_password: strength first, then token validation,
then one update_one on the token holder overwriting the hash, clearing
the token pair and clearing lockout state. -/
def reset_password (now : Int) (token new_password : String) (s : Store) :
    (Bool × String) × Store :=
  match validate_password new_password with
  | (false, e) => ((false, e), s)
  | (true, _) =>
    match validate_reset_token now token s with
    | .err e => ((false, e), s)
    | .ok _ _ _ =>
      ((true, "Password reset successfully! You can now login with your new password."),
        updateFirst (fun u => u.reset_token == some token)
          (fun u => { u with password := hash_password new_password,
                             reset_token := none, token_expiry := none,
                             last_modified := some now, is_locked := false,
                             failed_attempts := 0, lockout_until := none }) s)

/-! ## Generic documents and update_many (database.py SimpleCol)

clear_expired_tokens calls update_many with the filter
{"token_expiry": {"$lt": utcnow}}. To compare the two storage backends on
that call, documents are modelled generically: an association list of
field names to scalar values, and filter values as either a plain scalar
or a one-key operator dict {op: value} as Python builds them. -/

/-- A scalar stored in a document field (datetimes as integers). -/
inductive Value where
  | vnull
  | vbool (b : Bool)
  | vint (n : Int)
  | vstr (s : String)
  deriving DecidableEq, Repr

/-- A filter value: a plain scalar, or an operator dict such as
{"$lt": t} or {"$exists": b}. -/
inductive FVal where
  | val (v : Value)
  | op (name : String) (v : Value)
  deriving DecidableEq, Repr

/-- A document: field-name/value association list. -/
abbrev Doc := List (String × Value)

/-- Whether the key is present (Python `k in d`). -/
def dHasKey (d : Doc) (k : String) : Bool :=
  d.any (fun kv => kv.1 == k)

/-- Python `d.get(k)`: the stored value, or None when absent. -/
def dGet (d : Doc) (k : String) : Value :=
  match List.find? (fun kv => kv.1 == k) d with
  | some kv => kv.2
  | none => .vnull

/-- Python `d[k] = v`: replace the value if the key is present, else add
the key. -/
def dSet (d : Doc) (k : String) (v : Value) : Doc :=
  if dHasKey d k then d.map (fun kv => if kv.1 == k then (kv.1, v) else kv)
  else d ++ [(k, v)]

/-- Apply a `$set` mapping in order. -/
def applySet (d : Doc) (set : List (String × Value)) : Doc :=
  set.foldl (fun acc kv => dSet acc kv.1 kv.2) d

/-- Python truthiness of a scalar (used for `if v["$exists"]`). -/
def truthy : Value → Bool
  | .vnull => false
  | .vbool b => b
  | .vint n => n != 0
  | .vstr s => s != ""

/-- One filter condition of SimpleCol.update_many: an operator dict whose
key is "$exists" gets the existence check; ANY other filter value v falls
into the `elif d.get(k) != v` equality branch — and an operator dict such
as {"$lt": t} is never equal to a stored scalar, so it matches nothing. -/
def simpleMatchCond (d : Doc) (k : String) : FVal → Bool
  | .val v => dGet d k == v
  | .op o v =>
    if o == "$exists" then (if truthy v then dHasKey d k else !dHasKey d k)
    else false

/-- Conjunction of SimpleCol.update_many filter conditions. -/
def simpleMatch (d : Doc) (filt : List (String × FVal)) : Bool :=
  filt.all (fun kc => simpleMatchCond d kc.1 kc.2)

/-- SimpleCol.update_many: applies the `$set` to every matching document
in place (the modified count is not needed here). -/
def simpleUpdateMany (filt : List (String × FVal)) (set : List (String × Value))
    (data : List Doc) : List Doc :=
  data.map (fun d => if simpleMatch d filt then applySet d set else d)

/-- Modelled from the spec: the document-database backend (MongoDB via
pymongo, an external collaborator not in the repository) evaluates the
comparison operator $lt with type bracketing — a document matches
{"$lt": bound} exactly when the field holds a value of the bound's type
that is strictly smaller; null or missing fields do not match. Only the
operators this repository uses are modelled ($lt, $exists, equality). -/
def mongoMatchCond (d : Doc) (k : String) : FVal → Bool
  | .val v => dGet d k == v
  | .op o v =>
    if o == "$lt" then
      match List.find? (fun kv => kv.1 == k) d, v with
      | some (_, .vint x), .vint y => decide (x < y)
      | _, _ => false
    else if o == "$exists" then (if truthy v then dHasKey d k else !dHasKey d k)
    else false

/-- Conjunction of MongoDB filter conditions. -/
def mongoMatch (d : Doc) (filt : List (String × FVal)) : Bool :=
  filt.all (fun kc => mongoMatchCond d kc.1 kc.2)

/-- Modelled from the spec: MongoDB update_many applies the `$set` to
every matching document. -/
def mongoUpdateMany (filt : List (String × FVal)) (set : List (String × Value))
    (data : List Doc) : List Doc :=
  data.map (fun d => if mongoMatch d filt then applySet d set else d)

/-- The filter of UserManager.clear_expired_tokens:
{"token_expiry": {"$lt": datetime.utcnow()}}. -/
def clearExpiredFilter (now : Int) : List (String × FVal) :=
  [("token_expiry", .op "$lt" (.vint now))]

/-- The `$set` of UserManager.clear_expired_tokens:
{"reset_token": None, "token_expiry": None}. -/
def clearExpiredSet : List (String × Value) :=
  [("reset_token", .vnull), ("token_expiry", .vnull)]

/-- UserManager.clear_expired_tokens on the JSON-fallback backend
(SimpleCol.update_many); exceptions are swallowed by the caller, so the
result is just the swept collection. -/
def clear_expired_tokens_simple (now : Int) (data : List Doc) : List Doc :=
  simpleUpdateMany (clearExpiredFilter now) clearExpiredSet data

/-- UserManager.clear_expired_tokens on the document-database backend. -/
def clear_expired_tokens_mongo (now : Int) (data : List Doc) : List Doc :=
  mongoUpdateMany (clearExpiredFilter now) clearExpiredSet data

/-- The per-document sweep the Mongo backend applies (so that membership
in the swept collection can be stated pointwise). -/
def mongoSweepDoc (now : Int) (d : Doc) : Doc :=
  if mongoMatch d (clearExpiredFilter now) then applySet d clearExpiredSet else d

/-! ## Helper lemmas -/

theorem hash_password_inj {a b : String} (h : hash_password a = hash_password b) :
    a = b := by
  unfold hash_password at h
  have h2 := congrArg String.data h
  simp only [String.data_append] at h2
  exact String.ext (List.append_cancel_left h2)

theorem verify_hash_self (p : String) : verify_password p (hash_password p) = true := by
  simp [verify_password]

theorem verify_hash_ne {p q : String} (h : p ≠ q) :
    verify_password p (hash_password q) = false := by
  simp only [verify_password, beq_eq_false_iff_ne, ne_eq]
  intro hc
  exact h (hash_password_inj hc).symm

theorem find?_append_of_none {α : Type} (p : α → Bool) (a rest : List α)
    (ha : ∀ v ∈ a, p v = false) :
    List.find? p (a ++ rest) = List.find? p rest := by
  induction a with
  | nil => rfl
  | cons x xs ih =>
    have hx := ha x (by simp)
    simp only [List.cons_append, List.find?, hx]
    exact ih (fun v hv => ha v (by simp [hv]))

theorem find?_cons_of_pos {α : Type} (p : α → Bool) (u : α) (rest : List α)
    (hu : p u = true) : List.find? p (u :: rest) = some u := by
  simp [List.find?, hu]

theorem updateFirst_append_of_none (p : UserDoc → Bool) (f : UserDoc → UserDoc)
    (a rest : Store) (ha : ∀ v ∈ a, p v = false) :
    updateFirst p f (a ++ rest) = a ++ updateFirst p f rest := by
  induction a with
  | nil => rfl
  | cons x xs ih =>
    have hx := ha x (by simp)
    simp only [List.cons_append, updateFirst, hx, if_neg, Bool.false_eq_true,
      not_false_iff, List.cons.injEq, true_and]
    exact ih (fun v hv => ha v (by simp [hv]))

theorem updateFirst_cons_of_pos (p : UserDoc → Bool) (f : UserDoc → UserDoc)
    (u : UserDoc) (rest : Store) (hu : p u = true) :
    updateFirst p f (u :: rest) = f u :: rest := by
  simp [updateFirst, hu]

theorem mem_updateFirst {p : UserDoc → Bool} {f : UserDoc → UserDoc} {s : Store}
    {v : UserDoc} (h : v ∈ updateFirst p f s) : v ∈ s ∨ ∃ u ∈ s, v = f u := by
  induction s with
  | nil => simp [updateFirst] at h
  | cons x xs ih =>
    by_cases hx : p x
    · rw [updateFirst_cons_of_pos p f x xs hx] at h
      rcases List.mem_cons.mp h with h1 | h1
      · exact Or.inr ⟨x, by simp, h1⟩
      · exact Or.inl (by simp [h1])
    · simp only [updateFirst, hx, if_neg, Bool.false_eq_true, not_false_iff] at h
      rcases List.mem_cons.mp h with h1 | h1
      · exact Or.inl (by simp [h1])
      · rcases ih h1 with h2 | ⟨u, hu, h2⟩
        · exact Or.inl (by simp [h2])
        · exact Or.inr ⟨u, by simp [hu], h2⟩

theorem findUser_decomp (a b : Store) (u : UserDoc) (uname : String)
    (ha : ∀ v ∈ a, (v.username == uname) = false) (hu : u.username = uname) :
    findUser (a ++ u :: b) uname = some u := by
  unfold findUser
  rw [find?_append_of_none _ a _ ha]
  exact find?_cons_of_pos _ u b (by simp [hu])

theorem updateFirst_decomp (f : UserDoc → UserDoc) (a b : Store) (u : UserDoc)
    (uname : String) (ha : ∀ v ∈ a, (v.username == uname) = false)
    (hu : u.username = uname) :
    updateFirst (fun v => v.username == uname) f (a ++ u :: b) = a ++ f u :: b := by
  rw [updateFirst_append_of_none _ f a _ ha]
  rw [updateFirst_cons_of_pos _ f u b (by simp [hu])]

theorem auth_user_not_found (now : Int) (s : Store) (uname : String)
    (pw : Option String) (hfind : findUser s uname = none) :
    authenticate_user now uname pw s = (.err "User not found", s) := by
  unfold authenticate_user
  rw [hfind]

theorem auth_locked_until (now : Int) (s : Store) (uname : String) (pw : Option String)
    (u : UserDoc) (hfind : findUser s uname = some u) (hlocked : u.is_locked = true)
    (hactive : lockoutActive u.lockout_until now = true) :
    authenticate_user now uname pw s =
      (.err ("Account locked until " ++ dtStr u.lockout_until), s) := by
  unfold authenticate_user
  rw [hfind]
  simp [hlocked, hactive]

theorem auth_session_refresh (now : Int) (s : Store) (uname : String) (u : UserDoc)
    (hfind : findUser s uname = some u) (hstatus : u.status = "active")
    (hlock : u.is_locked = false) :
    authenticate_user now uname none s = (.ok uname u.role u.name u.email, s) := by
  unfold authenticate_user
  rw [hfind]
  simp [hlock, hstatus]

theorem auth_wrong_password_step (now : Int) (pw : String) (a b : Store) (u : UserDoc)
    (ha : ∀ v ∈ a, (v.username == u.username) = false)
    (hlock : u.is_locked = false) (hstatus : u.status = "active")
    (hpw : verify_password pw u.password = false)
    (hcnt : u.failed_attempts + 1 < MAX_LOGIN_ATTEMPTS) :
    authenticate_user now u.username (some pw) (a ++ u :: b) =
      (.err "Invalid password",
        a ++ { u with failed_attempts := u.failed_attempts + 1, is_locked := false,
                      lockout_until := none } :: b) := by
  unfold authenticate_user
  rw [findUser_decomp a b u u.username ha rfl]
  have hge : (decide (u.failed_attempts + 1 ≥ MAX_LOGIN_ATTEMPTS)) = false :=
    decide_eq_false (not_le.mpr hcnt)
  simp only [hlock, Bool.false_and, Bool.false_eq_true, if_neg, not_false_iff,
    hstatus, bne_self_eq_false, hpw, hge, if_false]
  rw [updateFirst_decomp _ a b u u.username ha rfl]
  simp [hlock, hstatus]

theorem auth_lockout_step (now : Int) (pw : String) (a b : Store) (u : UserDoc)
    (ha : ∀ v ∈ a, (v.username == u.username) = false)
    (hlock : u.is_locked = false) (hstatus : u.status = "active")
    (hpw : verify_password pw u.password = false)
    (hcnt : u.failed_attempts + 1 ≥ MAX_LOGIN_ATTEMPTS) :
    authenticate_user now u.username (some pw) (a ++ u :: b) =
      (.err ("Account locked until " ++ toString (now + LOCKOUT_DURATION)),
        a ++ { u with failed_attempts := u.failed_attempts + 1, is_locked := true,
                      lockout_until := some (now + LOCKOUT_DURATION) } :: b) := by
  unfold authenticate_user
  rw [findUser_decomp a b u u.username ha rfl]
  have hge : (decide (u.failed_attempts + 1 ≥ MAX_LOGIN_ATTEMPTS)) = true :=
    decide_eq_true hcnt
  simp only [hlock, Bool.false_and, Bool.false_eq_true, if_neg, not_false_iff,
    hstatus, bne_self_eq_false, hpw, hge, if_true, dtStr]
  rw [updateFirst_decomp _ a b u u.username ha rfl]
  simp [hlock, hstatus]

theorem auth_success_step (now : Int) (pw : String) (a b : Store) (u : UserDoc)
    (ha : ∀ v ∈ a, (v.username == u.username) = false)
    (hlock : u.is_locked = false) (hstatus : u.status = "active")
    (hpw : verify_password pw u.password = true) :
    authenticate_user now u.username (some pw) (a ++ u :: b) =
      (.ok u.username u.role u.name u.email,
        a ++ { u with last_login := some now, failed_attempts := 0,
                      lockout_until := none } :: b) := by
  unfold authenticate_user
  rw [findUser_decomp a b u u.username ha rfl]
  simp only [hlock, Bool.false_and, Bool.false_eq_true, if_neg, not_false_iff,
    hstatus, bne_self_eq_false, hpw, if_true]
  rw [updateFirst_decomp _ a b u u.username ha rfl]
  simp [hlock, hstatus]

/-! ## The reset-token pairing invariant -/

/-- reset_token and token_expiry are both null or both present. -/
def pairedTokens (u : UserDoc) : Prop := u.reset_token = none ↔ u.token_expiry = none

instance (u : UserDoc) : Decidable (pairedTokens u) := by
  unfold pairedTokens; infer_instance

/-- The pairing invariant over a whole store. -/
def pairedAll (s : Store) : Prop := ∀ u ∈ s, pairedTokens u

instance (s : Store) : Decidable (pairedAll s) := List.decidableBAll _ s

/-- The pairing invariant for a generic document. -/
def pairedDoc (d : Doc) : Prop :=
  dGet d "reset_token" = .vnull ↔ dGet d "token_expiry" = .vnull

instance (d : Doc) : Decidable (pairedDoc d) := by
  unfold pairedDoc; infer_instance

/-- The pairing invariant over a generic collection. -/
def pairedAllDocs (data : List Doc) : Prop := ∀ d ∈ data, pairedDoc d

instance (data : List Doc) : Decidable (pairedAllDocs data) := List.decidableBAll _ data

theorem pairedAll_updateFirst {p : UserDoc → Bool} {f : UserDoc → UserDoc} {s : Store}
    (hf : ∀ u, pairedTokens u → pairedTokens (f u)) (hs : pairedAll s) :
    pairedAll (updateFirst p f s) := by
  intro v hv
  rcases mem_updateFirst hv with h | ⟨u, hu, rfl⟩
  · exact hs v h
  · exact hf u (hs u hu)

theorem auth_preserves_paired (now : Int) (uname : String) (pw : Option String)
    (s : Store) (hs : pairedAll s) : pairedAll (authenticate_user now uname pw s).2 := by
  unfold authenticate_user
  cases hfind : findUser s uname with
  | none => exact hs
  | some user =>
    have hs1 : pairedAll (if user.is_locked then
        updateFirst (fun u => u.username == uname)
          (fun u => { u with is_locked := false, failed_attempts := 0,
                             lockout_until := none }) s
      else s) := by
      split
      · exact pairedAll_updateFirst (fun u hu => by simpa [pairedTokens] using hu) hs
      · exact hs
    dsimp only
    split
    · exact hs
    · split
      · exact hs1
      · split
        · exact hs1
        · split
          · exact pairedAll_updateFirst (fun u hu => by simpa [pairedTokens] using hu) hs1
          · exact pairedAll_updateFirst (fun u hu => by simpa [pairedTokens] using hu) hs1

theorem create_preserves_paired (now : Int) (uid un pw em nm rl : String) (s : Store)
    (hs : pairedAll s) : pairedAll (create_user now uid un pw em nm rl s).2 := by
  unfold create_user
  split
  · exact hs
  · split
    · exact hs
    · split
      · exact hs
      · split
        · exact hs
        · split
          · exact hs
          · intro u hu
            rcases List.mem_append.mp hu with h | h
            · exact hs u h
            · simp only [List.mem_singleton] at h
              subst h
              simp [pairedTokens]

theorem change_preserves_paired (now : Int) (un cur new : String) (s : Store)
    (hs : pairedAll s) : pairedAll (change_password now un cur new s).2 := by
  unfold change_password
  have hauth := auth_preserves_paired now un (some cur) s hs
  cases hr : authenticate_user now un (some cur) s with
  | mk r s1 =>
    rw [hr] at hauth
    cases r with
    | err e => exact hauth
    | ok a b c d =>
      dsimp only
      split
      · exact hauth
      · exact pairedAll_updateFirst (fun u hu => by simpa [pairedTokens] using hu) hauth

theorem generate_preserves_paired (now : Int) (token email : String) (s : Store)
    (hs : pairedAll s) : pairedAll (generate_reset_token now token email s).2 := by
  unfold generate_reset_token
  cases find_user_by_email s email with
  | none => exact hs
  | some user =>
    exact pairedAll_updateFirst (fun u _ => by simp [pairedTokens]) hs

theorem reset_preserves_paired (now : Int) (token newpw : String) (s : Store)
    (hs : pairedAll s) : pairedAll (reset_password now token newpw s).2 := by
  unfold reset_password
  split
  · exact hs
  · split
    · exact hs
    · exact pairedAll_updateFirst (fun u _ => by simp [pairedTokens]) hs

theorem dGet_cons (kv : String × Value) (rest : Doc) (q : String) :
    dGet (kv :: rest) q = if (kv.1 == q) = true then kv.2 else dGet rest q := by
  unfold dGet
  by_cases h : (kv.1 == q) = true
  · rw [find?_cons_of_pos _ kv rest h]
    simp [h]
  · have h' : (kv.1 == q) = false := by simpa using h
    simp only [List.find?, h', if_neg, Bool.false_eq_true, not_false_iff, h]

theorem dGet_append_single_other (d : Doc) (k : String) (v : Value) (q : String)
    (hne : (k == q) = false) : dGet (d ++ [(k, v)]) q = dGet d q := by
  induction d with
  | nil =>
    rw [List.nil_append, dGet_cons]
    simp [hne]
  | cons kv rest ih =>
    rw [List.cons_append, dGet_cons, dGet_cons]
    by_cases hq : (kv.1 == q) = true
    · simp [hq]
    · have hq' : (kv.1 == q) = false := by simpa using hq
      simp only [hq', Bool.false_eq_true, if_false]
      exact ih

theorem dGet_map_set_other (d : Doc) (k : String) (v : Value) (q : String)
    (hne : (k == q) = false) :
    dGet (d.map (fun kv => if kv.1 == k then (kv.1, v) else kv)) q = dGet d q := by
  induction d with
  | nil => rfl
  | cons kv rest ih =>
    rw [List.map_cons]
    by_cases hk : (kv.1 == k) = true
    · have hkq : (kv.1 == q) = false := by
        have h1 : kv.1 = k := by simpa using hk
        simpa [h1] using hne
      rw [if_pos hk, dGet_cons, dGet_cons]
      simp only [hkq, Bool.false_eq_true, if_false]
      exact ih
    · rw [if_neg hk, dGet_cons, dGet_cons]
      by_cases hq : (kv.1 == q) = true
      · simp [hq]
      · have hq' : (kv.1 == q) = false := by simpa using hq
        simp only [hq', Bool.false_eq_true, if_false]
        exact ih

theorem dGet_dSet_self (d : Doc) (k : String) (v : Value) :
    dGet (dSet d k v) k = v := by
  unfold dSet
  split
  · rename_i h
    unfold dHasKey at h
    induction d with
    | nil => simp at h
    | cons kv rest ih =>
      rw [List.map_cons]
      by_cases hk : (kv.1 == k) = true
      · rw [if_pos hk, dGet_cons]
        simp [hk]
      · have hk' : (kv.1 == k) = false := by simpa using hk
        have h2 : rest.any (fun kv => kv.1 == k) = true := by
          simpa [hk'] using h
        rw [if_neg hk, dGet_cons]
        simp only [hk', Bool.false_eq_true, if_false]
        exact ih h2
  · rename_i h
    unfold dHasKey at h
    have ha : ∀ kv ∈ d, (kv.1 == k) = false := by
      intro kv hkv
      by_contra hc
      exact h (List.any_eq_true.mpr ⟨kv, hkv, by simpa using hc⟩)
    unfold dGet
    rw [find?_append_of_none _ d _ ha]
    simp [List.find?]

theorem dGet_dSet_other (d : Doc) (k : String) (v : Value) (q : String)
    (hne : (k == q) = false) : dGet (dSet d k v) q = dGet d q := by
  unfold dSet
  split
  · exact dGet_map_set_other d k v q hne
  · exact dGet_append_single_other d k v q hne

theorem pairedDoc_applySet_clear (d : Doc) : pairedDoc (applySet d clearExpiredSet) := by
  unfold applySet clearExpiredSet pairedDoc
  simp only [List.foldl_cons, List.foldl_nil]
  rw [dGet_dSet_self]
  rw [dGet_dSet_other _ _ _ _ (by decide), dGet_dSet_self]

theorem simple_clear_is_id (now : Int) (data : List Doc) :
    clear_expired_tokens_simple now data = data := by
  unfold clear_expired_tokens_simple simpleUpdateMany clearExpiredFilter
  have hmatch : ∀ d : Doc,
      simpleMatch d [("token_expiry", .op "$lt" (.vint now))] = false := by
    intro d
    rfl
  simp [hmatch]

theorem mongo_clear_preserves_paired (now : Int) (data : List Doc)
    (h : pairedAllDocs data) : pairedAllDocs (clear_expired_tokens_mongo now data) := by
  intro d' hd'
  unfold clear_expired_tokens_mongo mongoUpdateMany at hd'
  rcases List.mem_map.mp hd' with ⟨d, hd, rfl⟩
  by_cases hm : mongoMatch d (clearExpiredFilter now) = true
  · simp only [hm, if_true]
    exact pairedDoc_applySet_clear d
  · have hm' : mongoMatch d (clearExpiredFilter now) = false := by simpa using hm
    simp only [hm', Bool.false_eq_true, if_false]
    exact h d hd

/-! ## Concrete fixtures -/

/-- A user locked at the attempt cap whose lockout expired at time 100. -/
def aliceLockedExpired : UserDoc :=
  { user_id := "u-alice", username := "alice", password := hash_password "Secret1@",
    email := "alice@example.com", name := "Alice", role := "teacher", created_at := 0,
    last_login := none, last_modified := none, failed_attempts := 5,
    is_locked := true, lockout_until := some 100, status := "active",
    reset_token := none, token_expiry := none }

/-- An ordinary active user: unlocked, no failed attempts, no reset token. -/
def bobActive : UserDoc :=
  { user_id := "u-bob", username := "bob", password := hash_password "Secret1@",
    email := "bob@example.com", name := "Bob", role := "teacher", created_at := 0,
    last_login := none, last_modified := none, failed_attempts := 0,
    is_locked := false, lockout_until := none, status := "active",
    reset_token := none, token_expiry := none }

/-- An active user currently locked (lockout until time 100). -/
def carolLocked : UserDoc :=
  { user_id := "u-carol", username := "carol", password := hash_password "Secret1@",
    email := "carol@example.com", name := "Carol", role := "teacher", created_at := 0,
    last_login := none, last_modified := none, failed_attempts := 5,
    is_locked := true, lockout_until := some 100, status := "active",
    reset_token := none, token_expiry := none }

/-- An inactive user holding a reset token valid until time 100. -/
def daveInactive : UserDoc :=
  { user_id := "u-dave", username := "dave", password := hash_password "Old1@pwd",
    email := "dave@example.com", name := "Dave", role := "teacher", created_at := 0,
    last_login := none, last_modified := none, failed_attempts := 0,
    is_locked := false, lockout_until := none, status := "inactive",
    reset_token := some "tok", token_expiry := some 100 }

/-- An active user holding a reset token valid until time 100. -/
def frankActive : UserDoc :=
  { user_id := "u-frank", username := "frank", password := hash_password "Old1@pwd",
    email := "frank@example.com", name := "Frank", role := "teacher", created_at := 0,
    last_login := none, last_modified := none, failed_attempts := 0,
    is_locked := false, lockout_until := none, status := "active",
    reset_token := some "ftok", token_expiry := some 100 }

/-- An active user whose reset token expires exactly at time 50. -/
def eveToken : UserDoc :=
  { user_id := "u-eve", username := "eve", password := hash_password "Secret1@",
    email := "eve@example.com", name := "Eve", role := "teacher", created_at := 0,
    last_login := none, last_modified := none, failed_attempts := 0,
    is_locked := false, lockout_until := none, status := "active",
    reset_token := some "tk", token_expiry := some 50 }

/-- A generic user document whose reset token expired at time 0. -/
def docExpiredToken : Doc :=
  [("username", .vstr "alice"), ("reset_token", .vstr "tok"), ("token_expiry", .vint 0)]

/-! ## Claims -/

/-- Claim C1 (code bug): at time 200, after the lockout expiry 100, a wrong-password
authentication against aliceLockedExpired does persist the lock-lifting write, but the
code then increments the stale pre-write failed_attempts value (5), reaching the
maximum again: the persisted state has failed_attempts = 6, is_locked = true and a
fresh lockout_until = 230, and the call returns the lockout message — not
failed_attempts = 1, is_locked = false and "Invalid password" as the claim states. -/
theorem C1_stale_relock :
    authenticate_user 200 "alice" (some "wrong") [aliceLockedExpired] =
      (.err "Account locked until 230",
        [{ aliceLockedExpired with failed_attempts := 6, is_locked := true,
                                   lockout_until := some 230 }]) := by
  decide

/-- Claim C2 (counterexample): at time 1, one sweep call on the JSON-fallback backend
leaves the expired token of docExpiredToken in place — SimpleCol.update_many compares
the filter value, an operator dict, by equality against the stored scalar, so nothing
matches — while the document-database sweep nulls both fields: the claim's "sets
reset_token and token_expiry to null ... identically on both storage backends" is
false on this input. -/
theorem C2_backend_divergence :
    clear_expired_tokens_simple 1 [docExpiredToken] = [docExpiredToken] ∧
    dGet docExpiredToken "token_expiry" = .vint 0 ∧
    clear_expired_tokens_mongo 1 [docExpiredToken] =
      [[("username", .vstr "alice"), ("reset_token", .vnull), ("token_expiry", .vnull)]] := by
  decide

theorem applySet_clear_reset (d : Doc) :
    dGet (applySet d clearExpiredSet) "reset_token" = .vnull := by
  unfold applySet clearExpiredSet
  simp only [List.foldl_cons, List.foldl_nil]
  rw [dGet_dSet_other _ _ _ _ (by decide), dGet_dSet_self]

theorem applySet_clear_expiry (d : Doc) :
    dGet (applySet d clearExpiredSet) "token_expiry" = .vnull := by
  unfold applySet clearExpiredSet
  simp only [List.foldl_cons, List.foldl_nil]
  rw [dGet_dSet_self]

/-- Claim C2 (amended): one clearExpiredTokens call nulls reset_token and
token_expiry for every document whose token_expiry lies in the past on the
document-database backend; on the file-backed JSON substitute the sweep's $lt filter
is not supported by SimpleCol.update_many (an operator dict is compared by equality
and never matches a stored scalar), so the sweep returns the collection unchanged.
The two backends therefore do not have identical query semantics on this call; the
swallowing of sweep failures is shared (both embeddings are total functions of the
collection). -/
theorem C2_sweep_amended (now t : Int) (data : List Doc) (d : Doc)
    (hd : d ∈ data) (ht : dGet d "token_expiry" = .vint t) (hlt : t < now) :
    clear_expired_tokens_simple now data = data ∧
    mongoSweepDoc now d ∈ clear_expired_tokens_mongo now data ∧
    dGet (mongoSweepDoc now d) "reset_token" = .vnull ∧
    dGet (mongoSweepDoc now d) "token_expiry" = .vnull := by
  have hfind : ∃ kv, List.find? (fun kv => kv.1 == "token_expiry") d = some kv ∧
      kv.2 = Value.vint t := by
    unfold dGet at ht
    cases hf : List.find? (fun kv => kv.1 == "token_expiry") d with
    | none => rw [hf] at ht; exact absurd ht (by simp)
    | some kv => rw [hf] at ht; exact ⟨kv, rfl, ht⟩
  obtain ⟨kv, hf, hkv⟩ := hfind
  obtain ⟨k1, v1⟩ := kv
  simp only at hkv
  subst hkv
  have hm : mongoMatch d (clearExpiredFilter now) = true := by
    unfold mongoMatch clearExpiredFilter
    simp only [List.all_cons, List.all_nil, Bool.and_true]
    unfold mongoMatchCond
    rw [hf]
    simp [hlt]
  have hsweep : mongoSweepDoc now d = applySet d clearExpiredSet := by
    unfold mongoSweepDoc
    rw [if_pos hm]
  refine ⟨simple_clear_is_id now data, ?_, ?_, ?_⟩
  · unfold clear_expired_tokens_mongo mongoUpdateMany
    exact List.mem_map.mpr ⟨d, hd, rfl⟩
  · rw [hsweep]; exact applySet_clear_reset d
  · rw [hsweep]; exact applySet_clear_expiry d

/-- Claim C2 (amended, witness): the amended statement evaluated on a one-document
collection with an expired token at time 1. -/
theorem C2_sweep_amended_witness :
    clear_expired_tokens_simple 1 [docExpiredToken] = [docExpiredToken] ∧
    mongoSweepDoc 1 docExpiredToken ∈ clear_expired_tokens_mongo 1 [docExpiredToken] ∧
    dGet (mongoSweepDoc 1 docExpiredToken) "reset_token" = .vnull ∧
    dGet (mongoSweepDoc 1 docExpiredToken) "token_expiry" = .vnull :=
  C2_sweep_amended 1 0 [docExpiredToken] docExpiredToken (by decide) (by decide) (by decide)

/-- Claim C3 (counterexample): with the store [bobActive], an unknown username fails
with "User not found" while a wrong password for the existing user fails with
"Invalid password": the two reasons are distinct and each names the failing field, so
the returned reason does let a caller tell unknown-username from wrong-password. -/
theorem C3_reasons_distinguish :
    (authenticate_user 0 "mallory" (some "Secret1@") [bobActive]).1 =
      .err "User not found" ∧
    (authenticate_user 0 "bob" (some "wrongpass") [bobActive]).1 =
      .err "Invalid password" ∧
    AuthResult.err "User not found" ≠ AuthResult.err "Invalid password" := by
  decide

/-- Claim C3 (amended): authentication failure reasons are not information-minimal
with respect to username existence: an unknown username always yields the reason
"User not found", while a wrong password for an existing, active, unlocked account
below the attempt cap always yields "Invalid password"; the two cases are
distinguishable from the returned reason. -/
theorem C3_amended (now : Int) (s : Store) (uname pw : String) :
    (findUser s uname = none →
      (authenticate_user now uname (some pw) s).1 = .err "User not found") ∧
    (∀ u, findUser s uname = some u → u.status = "active" → u.is_locked = false →
      verify_password pw u.password = false →
      u.failed_attempts + 1 < MAX_LOGIN_ATTEMPTS →
      (authenticate_user now uname (some pw) s).1 = .err "Invalid password") := by
  constructor
  · intro h
    rw [auth_user_not_found now s uname (some pw) h]
  · intro u hfind hstatus hlock hpw hcnt
    unfold authenticate_user
    rw [hfind]
    have hge : (decide (u.failed_attempts + 1 ≥ MAX_LOGIN_ATTEMPTS)) = false :=
      decide_eq_false (not_le.mpr hcnt)
    simp [hlock, hstatus, hpw, hge]

/-- Claim C3 (amended, witness): both branches evaluated on the store [bobActive]. -/
theorem C3_amended_witness :
    (authenticate_user 0 "mallory" (some "x") [bobActive]).1 = .err "User not found" ∧
    (authenticate_user 0 "bob" (some "wrongpass") [bobActive]).1 =
      .err "Invalid password" :=
  ⟨(C3_amended 0 [bobActive] "mallory" "x").1 (by decide),
   (C3_amended 0 [bobActive] "bob" "wrongpass").2 bobActive (by decide) rfl rfl
     (by decide) (by decide)⟩

/-- Claim C4 (counterexample): carolLocked is an existing user with status "active",
yet the null-password session-refresh call at time 0 (inside the lockout window)
returns a lockout failure instead of success, refuting the claim's quantification
over every active user. -/
theorem C4_locked_refresh_fails :
    (authenticate_user 0 "carol" none [carolLocked]).1 =
      .err "Account locked until 100" ∧
    carolLocked.status = "active" := by
  decide

/-- Claim C4 (amended): for every existing active user that is not locked, the
null-password call returns success carrying the user's current username, role, name
and email, and the store is returned entirely unchanged — zero writes on the
session-refresh path. -/
theorem C4_session_refresh (now : Int) (s : Store) (uname : String) (u : UserDoc)
    (hfind : findUser s uname = some u) (hstatus : u.status = "active")
    (hlock : u.is_locked = false) :
    authenticate_user now uname none s = (.ok uname u.role u.name u.email, s) :=
  auth_session_refresh now s uname u hfind hstatus hlock

/-- Claim C4 (amended, witness): the session-refresh path evaluated on [bobActive]. -/
theorem C4_session_refresh_witness :
    authenticate_user 7 "bob" none [bobActive] =
      (.ok "bob" "teacher" "Bob" "bob@example.com", [bobActive]) :=
  C4_session_refresh 7 [bobActive] "bob" bobActive (by decide) rfl rfl

theorem validate_password_eq_true {p : String} (h : (validate_password p).1 = true) :
    validate_password p = (true, "") := by
  unfold validate_password at h ⊢
  split_ifs at h ⊢ <;> simp_all

/-- Claim C5 (counterexample): daveInactive holds a currently valid token at time 0
and "NewPass1@" passes strength validation; reset_password succeeds, yet the
subsequent authentication with the new password fails with "Account is inactive",
contradicting the claim's unconditional "afterwards authenticate with the new
password succeeds". -/
theorem C5_inactive_reset :
    (reset_password 0 "tok" "NewPass1@" [daveInactive]).1 =
      (true, "Password reset successfully! You can now login with your new password.") ∧
    (authenticate_user 0 "dave" (some "NewPass1@")
        (reset_password 0 "tok" "NewPass1@" [daveInactive]).2).1 =
      .err "Account is inactive" := by
  decide

/-- Claim C5 (amended): for a user whose store position is exposed as a ++ u :: b
(no earlier document holds the token or the username), holding a currently valid
reset token, given a new password passing strength validation: reset_password
succeeds with a single write that overwrites the hash, nulls reset_token and
token_expiry and clears the lockout state; afterwards — provided the account's
status is active and the new password differs from the old one — authentication
with the new password succeeds and authentication with the old password fails. -/
theorem C5_reset_amended (now : Int) (token newpw oldpw : String) (a b : Store)
    (u : UserDoc)
    (htok : token ≠ "")
    (hatok : ∀ v ∈ a, (v.reset_token == some token) = false)
    (haname : ∀ v ∈ a, (v.username == u.username) = false)
    (hutok : u.reset_token = some token)
    (hexp : ∃ e, u.token_expiry = some e ∧ ¬ e < now)
    (hstrong : (validate_password newpw).1 = true)
    (hstatus : u.status = "active")
    (hold : u.password = hash_password oldpw)
    (hne : oldpw ≠ newpw) :
    reset_password now token newpw (a ++ u :: b) =
      ((true, "Password reset successfully! You can now login with your new password."),
        a ++ { u with password := hash_password newpw, reset_token := none,
                      token_expiry := none, last_modified := some now,
                      is_locked := false, failed_attempts := 0,
                      lockout_until := none } :: b) ∧
    (authenticate_user now u.username (some newpw)
        (reset_password now token newpw (a ++ u :: b)).2).1 =
      .ok u.username u.role u.name u.email ∧
    (authenticate_user now u.username (some oldpw)
        (reset_password now token newpw (a ++ u :: b)).2).1 =
      .err "Invalid password" := by
  obtain ⟨e, he, hge⟩ := hexp
  have hfindtok : findByToken (a ++ u :: b) token = some u := by
    unfold findByToken
    rw [find?_append_of_none _ a _ hatok]
    exact find?_cons_of_pos _ u b (by simp [hutok])
  have hval : validate_reset_token now token (a ++ u :: b) =
      .ok u.username u.email u.name := by
    unfold validate_reset_token
    rw [if_neg htok, hfindtok]
    simp [he, hge]
  have hreset : reset_password now token newpw (a ++ u :: b) =
      ((true, "Password reset successfully! You can now login with your new password."),
        a ++ { u with password := hash_password newpw, reset_token := none,
                      token_expiry := none, last_modified := some now,
                      is_locked := false, failed_attempts := 0,
                      lockout_until := none } :: b) := by
    unfold reset_password
    rw [validate_password_eq_true hstrong, hval]
    rw [updateFirst_append_of_none _ _ a _ hatok]
    rw [updateFirst_cons_of_pos _ _ u b (by simp [hutok])]
  refine ⟨hreset, ?_, ?_⟩
  · rw [hreset]
    rw [auth_success_step now newpw a b
      { u with password := hash_password newpw, reset_token := none,
               token_expiry := none, last_modified := some now,
               is_locked := false, failed_attempts := 0, lockout_until := none }
      haname rfl hstatus (verify_hash_self newpw)]
  · rw [hreset]
    rw [auth_wrong_password_step now oldpw a b
      { u with password := hash_password newpw, reset_token := none,
               token_expiry := none, last_modified := some now,
               is_locked := false, failed_attempts := 0, lockout_until := none }
      haname rfl hstatus (verify_hash_ne hne)
      (show 0 + 1 < MAX_LOGIN_ATTEMPTS by decide)]

/-- Claim C5 (amended, witness): the amended statement evaluated on the one-user
store [frankActive] at time 0 with token "ftok", old password "Old1@pwd" and new
password "NewPass1@". -/
theorem C5_reset_amended_witness :
    reset_password 0 "ftok" "NewPass1@" [frankActive] =
      ((true, "Password reset successfully! You can now login with your new password."),
        [{ frankActive with password := hash_password "NewPass1@", reset_token := none,
                            token_expiry := none, last_modified := some 0,
                            is_locked := false, failed_attempts := 0,
                            lockout_until := none }]) ∧
    (authenticate_user 0 "frank" (some "NewPass1@")
        (reset_password 0 "ftok" "NewPass1@" [frankActive]).2).1 =
      .ok "frank" "teacher" "Frank" "frank@example.com" ∧
    (authenticate_user 0 "frank" (some "Old1@pwd")
        (reset_password 0 "ftok" "NewPass1@" [frankActive]).2).1 =
      .err "Invalid password" :=
  C5_reset_amended 0 "ftok" "NewPass1@" "Old1@pwd" [] [] frankActive
    (by decide) (by simp) (by simp) rfl ⟨100, rfl, by decide⟩ (by decide) rfl rfl
    (by decide)

/-- Claim C6: starting from an unlocked active user with failed_attempts = 0 (store
exposed as a ++ u :: b with no earlier document carrying the username), five
consecutive wrong-password authentications at times t1..t5 leave the account with
is_locked = true and lockout_until = t5 + LOCKOUT_DURATION, the fifth call's reason
names that expiry, and a further call with the correct password at any time t6 before
the expiry still fails with the lockout message. -/
theorem C6_lockout_after_five (t1 t2 t3 t4 t5 t6 : Int) (pw correctpw : String)
    (a b : Store) (u : UserDoc)
    (ha : ∀ v ∈ a, (v.username == u.username) = false)
    (hcnt : u.failed_attempts = 0) (hlock : u.is_locked = false)
    (hstatus : u.status = "active")
    (hpw : verify_password pw u.password = false)
    (hcpw : u.password = hash_password correctpw)
    (ht6 : t6 < t5 + LOCKOUT_DURATION) :
    let s0 : Store := a ++ u :: b
    let s1 := (authenticate_user t1 u.username (some pw) s0).2
    let s2 := (authenticate_user t2 u.username (some pw) s1).2
    let s3 := (authenticate_user t3 u.username (some pw) s2).2
    let s4 := (authenticate_user t4 u.username (some pw) s3).2
    let s5 := (authenticate_user t5 u.username (some pw) s4).2
    (authenticate_user t5 u.username (some pw) s4).1 =
      .err ("Account locked until " ++ toString (t5 + LOCKOUT_DURATION)) ∧
    s5 = a ++ { u with failed_attempts := 5, is_locked := true,
                       lockout_until := some (t5 + LOCKOUT_DURATION) } :: b ∧
    (authenticate_user t6 u.username (some correctpw) s5).1 =
      .err ("Account locked until " ++ toString (t5 + LOCKOUT_DURATION)) := by
  have e1 : authenticate_user t1 u.username (some pw) (a ++ u :: b) =
      (.err "Invalid password",
        a ++ { u with failed_attempts := 1, is_locked := false,
                      lockout_until := none } :: b) := by
    rw [auth_wrong_password_step t1 pw a b u ha hlock hstatus hpw
      (by rw [hcnt]; decide), hcnt]
  have e2 : authenticate_user t2 u.username (some pw)
      (a ++ { u with failed_attempts := 1, is_locked := false,
                     lockout_until := none } :: b) =
      (.err "Invalid password",
        a ++ { u with failed_attempts := 2, is_locked := false,
                      lockout_until := none } :: b) :=
    auth_wrong_password_step t2 pw a b _ ha rfl hstatus hpw
      (show 1 + 1 < MAX_LOGIN_ATTEMPTS by decide)
  have e3 : authenticate_user t3 u.username (some pw)
      (a ++ { u with failed_attempts := 2, is_locked := false,
                     lockout_until := none } :: b) =
      (.err "Invalid password",
        a ++ { u with failed_attempts := 3, is_locked := false,
                      lockout_until := none } :: b) :=
    auth_wrong_password_step t3 pw a b _ ha rfl hstatus hpw
      (show 2 + 1 < MAX_LOGIN_ATTEMPTS by decide)
  have e4 : authenticate_user t4 u.username (some pw)
      (a ++ { u with failed_attempts := 3, is_locked := false,
                     lockout_until := none } :: b) =
      (.err "Invalid password",
        a ++ { u with failed_attempts := 4, is_locked := false,
                      lockout_until := none } :: b) :=
    auth_wrong_password_step t4 pw a b _ ha rfl hstatus hpw
      (show 3 + 1 < MAX_LOGIN_ATTEMPTS by decide)
  have e5 : authenticate_user t5 u.username (some pw)
      (a ++ { u with failed_attempts := 4, is_locked := false,
                     lockout_until := none } :: b) =
      (.err ("Account locked until " ++ toString (t5 + LOCKOUT_DURATION)),
        a ++ { u with failed_attempts := 5, is_locked := true,
                      lockout_until := some (t5 + LOCKOUT_DURATION) } :: b) :=
    auth_lockout_step t5 pw a b _ ha rfl hstatus hpw
      (show 4 + 1 ≥ MAX_LOGIN_ATTEMPTS by decide)
  have e6 : authenticate_user t6 u.username (some correctpw)
      (a ++ { u with failed_attempts := 5, is_locked := true,
                     lockout_until := some (t5 + LOCKOUT_DURATION) } :: b) =
      (.err ("Account locked until " ++ toString (t5 + LOCKOUT_DURATION)),
        a ++ { u with failed_attempts := 5, is_locked := true,
                      lockout_until := some (t5 + LOCKOUT_DURATION) } :: b) := by
    have hfind := findUser_decomp a b
      { u with failed_attempts := 5, is_locked := true,
               lockout_until := some (t5 + LOCKOUT_DURATION) } u.username ha rfl
    have hact : lockoutActive (some (t5 + LOCKOUT_DURATION)) t6 = true := by
      unfold lockoutActive
      exact decide_eq_true ht6
    exact auth_locked_until t6 _ u.username (some correctpw) _ hfind rfl hact
  refine ⟨?_, ?_, ?_⟩ <;> simp only [e1, e2, e3, e4, e5, e6]

/-- Claim C6 (witness): the lockout scenario evaluated on the one-user store
[bobActive] with five wrong attempts at time 0 and a correct-password attempt at
time 10, inside the 30-minute lockout window. -/
theorem C6_lockout_after_five_witness :
    let s0 : Store := [bobActive]
    let s1 := (authenticate_user 0 "bob" (some "wrongpass") s0).2
    let s2 := (authenticate_user 0 "bob" (some "wrongpass") s1).2
    let s3 := (authenticate_user 0 "bob" (some "wrongpass") s2).2
    let s4 := (authenticate_user 0 "bob" (some "wrongpass") s3).2
    let s5 := (authenticate_user 0 "bob" (some "wrongpass") s4).2
    (authenticate_user 0 "bob" (some "wrongpass") s4).1 =
      .err ("Account locked until " ++ toString ((0 : Int) + LOCKOUT_DURATION)) ∧
    s5 = [{ bobActive with failed_attempts := 5, is_locked := true,
                           lockout_until := some ((0 : Int) + LOCKOUT_DURATION) }] ∧
    (authenticate_user 10 "bob" (some "Secret1@") s5).1 =
      .err ("Account locked until " ++ toString ((0 : Int) + LOCKOUT_DURATION)) :=
  C6_lockout_after_five 0 0 0 0 0 10 "wrongpass" "Secret1@" [] [] bobActive
    (by simp) rfl rfl rfl (by decide) rfl (by decide)

/-- Claim C7 (counterexample): eveToken's token_expiry is exactly the current
instant 50; the claim requires rejection ("Reset token has expired"), but the code's
strict comparison `token_expiry < utcnow` does not fire, so validation succeeds. -/
theorem C7_boundary_accepted :
    validate_reset_token 50 "tk" [eveToken] = .ok "eve" "eve@example.com" "Eve" ∧
    validate_reset_token 50 "tk" [eveToken] ≠ .err "Reset token has expired" := by
  decide

/-- Claim C7 (amended): validate_reset_token is a pure check (the embedding is a
function of the store issuing no write) that fails "No reset token provided" on an
empty token, "Invalid reset token" when no user holds the token, "Reset token has
expired" when the holder's token_expiry is absent or strictly before the current
instant, and otherwise — including the boundary case token_expiry = now — succeeds
with the holder's username, email and name. -/
theorem C7_validate_amended (now : Int) (token : String) (s : Store) :
    (token = "" → validate_reset_token now token s = .err "No reset token provided") ∧
    (token ≠ "" → findByToken s token = none →
      validate_reset_token now token s = .err "Invalid reset token") ∧
    (∀ u, token ≠ "" → findByToken s token = some u → u.token_expiry = none →
      validate_reset_token now token s = .err "Reset token has expired") ∧
    (∀ u e, token ≠ "" → findByToken s token = some u → u.token_expiry = some e →
      e < now → validate_reset_token now token s = .err "Reset token has expired") ∧
    (∀ u e, token ≠ "" → findByToken s token = some u → u.token_expiry = some e →
      ¬ e < now → validate_reset_token now token s = .ok u.username u.email u.name) := by
  refine ⟨?_, ?_, ?_, ?_, ?_⟩
  · intro h
    unfold validate_reset_token
    rw [if_pos h]
  · intro h hf
    unfold validate_reset_token
    rw [if_neg h, hf]
  · intro u h hf he
    unfold validate_reset_token
    rw [if_neg h, hf]
    simp [he]
  · intro u e h hf he hlt
    unfold validate_reset_token
    rw [if_neg h, hf]
    simp [he, hlt]
  · intro u e h hf he hge
    unfold validate_reset_token
    rw [if_neg h, hf]
    simp [he, hge]

/-- Claim C7 (amended, witness): the empty-token branch and the boundary
token_expiry = now branch, evaluated concretely. -/
theorem C7_validate_amended_witness :
    validate_reset_token 0 "" [] = .err "No reset token provided" ∧
    validate_reset_token 50 "tk" [eveToken] = .ok "eve" "eve@example.com" "Eve" :=
  ⟨(C7_validate_amended 0 "" []).1 rfl,
   (C7_validate_amended 50 "tk" [eveToken]).2.2.2.2 eveToken 50 (by decide) (by decide)
     rfl (by decide)⟩

/-- Claim C9: each operation of the credential core preserves the invariant that
reset_token and token_expiry are both null or both present — create_user inserts
them both null, authenticate_user and change_password never touch them,
generate_reset_token sets both, reset_password clears both, and the expired-token
sweep clears both on the document-database backend and is the identity on the JSON
fallback. Every state reachable through these operations from a state satisfying
the invariant therefore satisfies it. -/
theorem C9_token_pairing :
    (∀ (now : Int) uid un pw em nm rl s, pairedAll s →
      pairedAll (create_user now uid un pw em nm rl s).2) ∧
    (∀ (now : Int) un pw s, pairedAll s →
      pairedAll (authenticate_user now un pw s).2) ∧
    (∀ (now : Int) un cur new s, pairedAll s →
      pairedAll (change_password now un cur new s).2) ∧
    (∀ (now : Int) token em s, pairedAll s →
      pairedAll (generate_reset_token now token em s).2) ∧
    (∀ (now : Int) token new s, pairedAll s →
      pairedAll (reset_password now token new s).2) ∧
    (∀ (now : Int) data, pairedAllDocs data →
      pairedAllDocs (clear_expired_tokens_mongo now data) ∧
      pairedAllDocs (clear_expired_tokens_simple now data)) :=
  ⟨create_preserves_paired, auth_preserves_paired, change_preserves_paired,
   generate_preserves_paired, reset_preserves_paired,
   fun now data h =>
     ⟨mongo_clear_preserves_paired now data h, by rw [simple_clear_is_id]; exact h⟩⟩

/-- Claim C9 (witness): the invariant evaluated across one concrete call of the
token-issuing operation on [bobActive]. -/
theorem C9_token_pairing_witness :
    pairedAll (generate_reset_token 5 "tok9" "bob@example.com" [bobActive]).2 :=
  C9_token_pairing.2.2.2.1 5 "tok9" "bob@example.com" [bobActive] (by decide)

/-- Claim C8: create_user validates in the fixed order (1) username length, (2)
email format, (3) username taken, (4) email taken, (5) password strength — the
first failing check determines the returned reason and the store is returned
unchanged (no partial writes); when every check passes, exactly one document is
appended to the store. -/
theorem C8_create_user_cascade (now : Int)
    (uid username password email name role : String) (s : Store) :
    (username.length < 3 →
      create_user now uid username password email name role s =
        ((false, "Username must be at least 3 characters"), s)) ∧
    (¬ username.length < 3 → validate_email email = false →
      create_user now uid username password email name role s =
        ((false, "Invalid email format"), s)) ∧
    (¬ username.length < 3 → validate_email email = true →
      (findUser s username).isSome = true →
      create_user now uid username password email name role s =
        ((false, "Username already exists"), s)) ∧
    (¬ username.length < 3 → validate_email email = true →
      (findUser s username).isSome = false →
      (find_user_by_email s email).isSome = true →
      create_user now uid username password email name role s =
        ((false, "Email already exists"), s)) ∧
    (∀ msg, ¬ username.length < 3 → validate_email email = true →
      (findUser s username).isSome = false →
      (find_user_by_email s email).isSome = false →
      validate_password password = (false, msg) →
      create_user now uid username password email name role s = ((false, msg), s)) ∧
    (¬ username.length < 3 → validate_email email = true →
      (findUser s username).isSome = false →
      (find_user_by_email s email).isSome = false →
      (validate_password password).1 = true →
      ∃ d, create_user now uid username password email name role s =
        ((true, "User created successfully in MongoDB."), s ++ [d])) := by
  refine ⟨?_, ?_, ?_, ?_, ?_, ?_⟩
  · intro h1
    unfold create_user
    simp [h1]
  · intro h1 h2
    have hne : ¬ username = "" := fun hc => h1 (by rw [hc]; decide)
    unfold create_user
    simp [h1, hne, h2]
  · intro h1 h2 h3
    have hne : ¬ username = "" := fun hc => h1 (by rw [hc]; decide)
    unfold create_user
    simp [h1, hne, h2, h3]
  · intro h1 h2 h3 h4
    have hne : ¬ username = "" := fun hc => h1 (by rw [hc]; decide)
    unfold create_user
    simp [h1, hne, h2, h3, h4]
  · intro msg h1 h2 h3 h4 h5
    have hne : ¬ username = "" := fun hc => h1 (by rw [hc]; decide)
    unfold create_user
    simp [h1, hne, h2, h3, h4, h5]
  · intro h1 h2 h3 h4 h5
    have hne : ¬ username = "" := fun hc => h1 (by rw [hc]; decide)
    refine ⟨{ user_id := uid, username := username,
              password := hash_password password, email := email, name := name,
              role := role, created_at := now, last_login := none,
              last_modified := none, failed_attempts := 0, is_locked := false,
              lockout_until := none, status := "active", reset_token := none,
              token_expiry := none }, ?_⟩
    unfold create_user
    simp [h1, hne, h2, h3, h4, validate_password_eq_true h5]

/-- Claim C8 (witness): the cascade evaluated concretely — a short username, and a
fully valid creation appending exactly one document to the empty store. -/
theorem C8_create_user_cascade_witness :
    create_user 0 "id1" "al" "Str0ng!P" "al@example.com" "Al" "teacher" [] =
      ((false, "Username must be at least 3 characters"), []) ∧
    ∃ d, create_user 0 "id2" "gina" "Str0ng!P" "gina@example.com" "Gina" "teacher" [] =
      ((true, "User created successfully in MongoDB."), [] ++ [d]) :=
  ⟨(C8_create_user_cascade 0 "id1" "al" "Str0ng!P" "al@example.com" "Al" "teacher"
      []).1 (by decide),
   (C8_create_user_cascade 0 "id2" "gina" "Str0ng!P" "gina@example.com" "Gina"
      "teacher" []).2.2.2.2.2 (by decide) (by decide) (by decide) (by decide)
      (by decide)⟩

/-- Claim C10 (counterexample): two passwords that each contain a character
outside ASCII letters, ASCII digits and the symbol set @$!%*?&, meet the minimum
length and contain all four required classes, yet are accepted by
validate_password: "Aa1@aaaa\n", because re.match's `$` anchor tolerates a
single trailing newline, and "Aa1@aaa٣", because the pattern's \d matches any
Unicode decimal digit such as the Arabic-Indic three, not just ASCII 0-9. -/
theorem C10_tolerances_accepted :
    validate_password "Aa1@aaaa\n" = (true, "") ∧
    validate_password "Aa1@aaa٣" = (true, "") ∧
    ('\n'.isAlpha || '\n'.isDigit || isPwSpecial '\n') = false ∧
    ('٣'.isAlpha || '٣'.isDigit || isPwSpecial '٣') = false := by
  decide

/-- Claim C10 (amended): the alphabet restriction holds up to two tolerances of
the pattern — the `$` anchor accepts one trailing newline, and \d accepts every
Unicode decimal digit rather than only ASCII 0-9: for every password whose body
(the string minus one optional trailing newline) contains any character outside
ASCII letters, Unicode decimal digits and @$!%*?&, validate_password rejects it
(with the strength reason whenever the full string meets the minimum length),
and consequently create_user (with the four earlier checks passing),
reset_password, and change_password (with a successful current-password
authentication) all fail with validate_password's reason. -/
theorem C10_strength_alphabet (p : String)
    (hbad : (chopNl p.data).any (fun c => !(isPwChar c)) = true) :
    (validate_password p).1 = false ∧
    (¬ p.length < PASSWORD_MIN_LENGTH →
      validate_password p = (false,
        "Password must contain at least one uppercase letter, one lowercase letter, one number, and one special character")) ∧
    (∀ (now : Int) uid un em nm rl s, ¬ un.length < 3 → validate_email em = true →
      (findUser s un).isSome = false → (find_user_by_email s em).isSome = false →
      create_user now uid un p em nm rl s = ((false, (validate_password p).2), s)) ∧
    (∀ (now : Int) token s,
      reset_password now token p s = ((false, (validate_password p).2), s)) ∧
    (∀ (now : Int) un cur s r0 r1 r2 r3 s1,
      authenticate_user now un (some cur) s = (.ok r0 r1 r2 r3, s1) →
      change_password now un cur p s = ((false, (validate_password p).2), s1)) := by
  obtain ⟨c, hc, hcb⟩ := List.any_eq_true.mp hbad
  have hcbad : isPwChar c = false := by simpa using hcb
  have hall : (chopNl p.data).all isPwChar = false := by
    by_contra hcon
    have h2 : (chopNl p.data).all isPwChar = true := by simpa using hcon
    have := List.all_eq_true.mp h2 c hc
    rw [hcbad] at this
    exact absurd this (by simp)
  have hregex : pwRegexMatch p = false := by
    unfold pwRegexMatch
    simp [hall]
  have hfalse : (validate_password p).1 = false := by
    unfold validate_password
    split_ifs with h1 h2 h3
    · rfl
    · rfl
    · rfl
    · rw [hregex] at h3
      simp at h3
  have hpair : validate_password p = (false, (validate_password p).2) := by
    cases hv : validate_password p with
    | mk b m =>
      rw [hv] at hfalse
      simp only at hfalse
      subst hfalse
      rfl
  obtain ⟨m, hm⟩ : ∃ m, validate_password p = (false, m) :=
    ⟨(validate_password p).2, hpair⟩
  refine ⟨hfalse, ?_, ?_, ?_, ?_⟩
  · intro hlen
    have hne : ¬ p = "" := fun hc2 => hlen (by rw [hc2]; decide)
    unfold validate_password
    rw [if_neg hne, if_neg hlen, if_pos (by simp [hregex])]
  · intro now uid un em nm rl s h1 h2 h3 h4
    have hne : ¬ un = "" := fun hc2 => h1 (by rw [hc2]; decide)
    unfold create_user
    simp [h1, hne, h2, h3, h4, hm]
  · intro now token s
    unfold reset_password
    rw [hm]
  · intro now un cur s r0 r1 r2 r3 s1 hauth
    unfold change_password
    rw [hauth]
    simp only
    rw [hm]

/-- Claim C10 (amended, witness): the amended statement evaluated at the password
"Aa1 aaaa!", whose body contains a space — the claim's own example of a character
outside the allowed set. -/
theorem C10_strength_alphabet_witness :
    (validate_password "Aa1 aaaa!").1 = false ∧
    reset_password 3 "t" "Aa1 aaaa!" [] =
      ((false, (validate_password "Aa1 aaaa!").2), []) :=
  ⟨(C10_strength_alphabet "Aa1 aaaa!" (by decide)).1,
   (C10_strength_alphabet "Aa1 aaaa!" (by decide)).2.2.2.1 3 "t" []⟩
